import Mathlib

/-!
Verification development for the screenshot-to-note Telegram bots
(dauletakberdiyev/ojpg_bot).  The repository contains three pipeline
variants:

* `telegram_bot.py` — Yandex Vision OCR plus rules-based structuring
  (`YandexVisionOCR.extract_text_from_image`, `NoteProcessor.generate_title`,
  `NoteProcessor.extract_tags`, handler `handle_photo`);
* `telegram_bot_google.py` — Google Cloud Vision plus keyword heuristics
  (`NotesBot.extract_text_from_image`, `generate_title_from_text`,
  `generate_tags_from_text`, handler `handle_photo`);
* `telegram_bot_open_ai.py` — OpenAI vision structuring
  (`NotesBot.analyze_image_with_openai`, `save_note_to_db`,
  handler `handle_image`).

Strings are embedded as `List Char`.  The character-class predicates model
the ASCII fragment of Python's `str` semantics, extended with the basic
Cyrillic block (the keyword tables in the sources contain Russian words).
Network collaborators (Telegram, Supabase, the OCR/AI services) are
embedded as explicit outcome values handed to the handler functions, which
return a trace recording the terminal result and which persistence
collaborators were invoked.
-/

namespace Ojpg

/-- Whitespace as recognized by Python's `str.strip`, `str.split()` and the
regex class `\s` (ASCII fragment). -/
def pyIsSpace (c : Char) : Bool :=
  c = ' ' || c = '\t' || c = '\n' || c = '\r' || c = '\x0b' || c = '\x0c'

/-- Python `str.strip()`: drop leading and trailing whitespace. -/
def pyStrip (l : List Char) : List Char :=
  ((l.dropWhile pyIsSpace).reverse.dropWhile pyIsSpace).reverse

/-- Helper for `collapseWs`; the flag records whether the previous character
was part of a whitespace run already replaced by a single space. -/
def collapseWsAux : Bool → List Char → List Char
  | _, [] => []
  | prevSpace, c :: rest =>
    if pyIsSpace c then
      if prevSpace then collapseWsAux true rest
      else ' ' :: collapseWsAux true rest
    else c :: collapseWsAux false rest

/-- Python `re.sub(r'\s+', ' ', s)`: each maximal whitespace run becomes one
space. -/
def collapseWs (l : List Char) : List Char :=
  collapseWsAux false l

/-- Case table for Python `str.lower()` over ASCII letters and the basic
Cyrillic block (the fragment exercised by the repository's keyword rules). -/
def lowerPairs : List (Char × Char) :=
  [('A', 'a'), ('B', 'b'), ('C', 'c'), ('D', 'd'), ('E', 'e'), ('F', 'f'),
   ('G', 'g'), ('H', 'h'), ('I', 'i'), ('J', 'j'), ('K', 'k'), ('L', 'l'),
   ('M', 'm'), ('N', 'n'), ('O', 'o'), ('P', 'p'), ('Q', 'q'), ('R', 'r'),
   ('S', 's'), ('T', 't'), ('U', 'u'), ('V', 'v'), ('W', 'w'), ('X', 'x'),
   ('Y', 'y'), ('Z', 'z'),
   ('А', 'а'), ('Б', 'б'), ('В', 'в'), ('Г', 'г'), ('Д', 'д'), ('Е', 'е'),
   ('Ж', 'ж'), ('З', 'з'), ('И', 'и'), ('Й', 'й'), ('К', 'к'), ('Л', 'л'),
   ('М', 'м'), ('Н', 'н'), ('О', 'о'), ('П', 'п'), ('Р', 'р'), ('С', 'с'),
   ('Т', 'т'), ('У', 'у'), ('Ф', 'ф'), ('Х', 'х'), ('Ц', 'ц'), ('Ч', 'ч'),
   ('Ш', 'ш'), ('Щ', 'щ'), ('Ъ', 'ъ'), ('Ы', 'ы'), ('Ь', 'ь'), ('Э', 'э'),
   ('Ю', 'ю'), ('Я', 'я'), ('Ё', 'ё')]

/-- Lowercase one character (Python `str.lower()` on the modelled
alphabet; any character outside the table is left unchanged). -/
def lowerChar (c : Char) : Char :=
  match lowerPairs.find? (fun q => q.1 = c) with
  | some q => q.2
  | none => c

/-- Membership in the Cyrillic block А..я plus Ё/ё. -/
def isCyr (c : Char) : Bool :=
  (0x410 ≤ c.toNat && c.toNat ≤ 0x44F) || c = 'Ё' || c = 'ё'

/-- Word characters of the regex class `\w` over the modelled alphabet. -/
def isWordChar (c : Char) : Bool :=
  c.isAlphanum || c = '_' || isCyr c

/-- True when every character is whitespace. -/
def allSpace (l : List Char) : Bool :=
  l.all pyIsSpace

/-- Helper for `pySplitWs`, accumulating the current word reversed. -/
def splitWsAux : List Char → List Char → List (List Char)
  | [], acc => if acc.isEmpty then [] else [acc.reverse]
  | c :: rest, acc =>
    if pyIsSpace c then
      if acc.isEmpty then splitWsAux rest []
      else acc.reverse :: splitWsAux rest []
    else splitWsAux rest (c :: acc)

/-- Python `str.split()` with no argument: split on whitespace runs,
producing no empty words. -/
def pySplitWs (l : List Char) : List (List Char) :=
  splitWsAux l []

/-- Sentence-ending characters of the regex `[.!?\n]+` used by
`NoteProcessor.generate_title`. -/
def isSentenceEnd (c : Char) : Bool :=
  c = '.' || c = '!' || c = '?' || c = '\n'

/-- Scanner for `findHashtags`.  The state is `none` outside a candidate
match and `some acc` (the word characters read so far, reversed) right
after a `#`; a candidate is emitted when its word-character run ends
non-empty, matching the leftmost non-overlapping semantics of
`re.findall`. -/
def findHashtagsAux : Option (List Char) → List Char → List (List Char)
  | none, [] => []
  | some acc, [] => if acc.isEmpty then [] else [acc.reverse]
  | none, c :: rest =>
    if c = '#' then findHashtagsAux (some []) rest
    else findHashtagsAux none rest
  | some acc, c :: rest =>
    if isWordChar c then findHashtagsAux (some (c :: acc)) rest
    else if acc.isEmpty then
      findHashtagsAux (if c = '#' then some [] else none) rest
    else
      acc.reverse :: findHashtagsAux (if c = '#' then some [] else none) rest

/-- Python `re.findall(r'#\w+', s)` with the leading `#` removed from each
match: every maximal nonempty word-character run immediately following a
`#` that is not itself inside a previous match. -/
def findHashtags (l : List Char) : List (List Char) :=
  findHashtagsAux none l

/-- Python's substring operator `w in l`: `w` occurs contiguously in `l`. -/
def hasSubstr (w : List Char) : List Char → Bool
  | [] => w.isEmpty
  | c :: rest => w.isPrefixOf (c :: rest) || hasSubstr w rest

/-- Python `content.startswith("Error:")`: the in-band failure marker of the
rules-based variant. -/
def startsWithError (content : List Char) : Bool :=
  "Error:".toList.isPrefixOf content

/-- The title candidate of `NoteProcessor.generate_title`: the text up to the
first sentence-ending character of the stripped content (the head of
`re.split(r'[.!?\n]+', content.strip())`), stripped and with internal
whitespace collapsed. -/
def firstSentenceTitle (content : List Char) : List Char :=
  collapseWs (pyStrip ((pyStrip content).takeWhile (fun c => !isSentenceEnd c)))

/-- The truncation step of `NoteProcessor.generate_title`:
`title[:max_length-3] + "..."` when the title is longer than
`max_length`. -/
def truncateTitle (title : List Char) (maxLength : Nat) : List Char :=
  if maxLength < title.length then title.take (maxLength - 3) ++ "...".toList
  else title

/-- Embeds `NoteProcessor.generate_title` (telegram_bot.py, lines 127-142).
The source's default `max_length` of 50 is passed explicitly at every
use site of this development. -/
def NoteProcessor.generate_title (content : List Char) (maxLength : Nat) : List Char :=
  if content.isEmpty || startsWithError content then "Untitled Screenshot".toList
  else if (truncateTitle (firstSentenceTitle content) maxLength).isEmpty then
    "Screenshot Note".toList
  else truncateTitle (firstSentenceTitle content) maxLength

/-- The `tag_patterns` table of `NoteProcessor.extract_tags`
(telegram_bot.py, lines 155-168), in source order. -/
def tag_patterns : List (List Char × List (List Char)) :=
  [("email".toList, ["email".toList, "@".toList, "mail".toList, "inbox".toList]),
   ("auth".toList, ["password".toList, "login".toList, "auth".toList,
                    "signin".toList, "signup".toList]),
   ("code".toList, ["code".toList, "programming".toList, "function".toList,
                    "class".toList, "def ".toList, "var ".toList,
                    "const ".toList, ['\x7b'], ['\x7d']]),
   ("meeting".toList, ["meeting".toList, "call".toList, "zoom".toList,
                       "teams".toList, "conference".toList]),
   ("todo".toList, ["todo".toList, "task".toList, "deadline".toList,
                    "☐".toList, "□".toList, "checklist".toList]),
   ("finance".toList, ["invoice".toList, "payment".toList, "bill".toList,
                       "$".toList, "€".toList, "₽".toList, "price".toList,
                       "cost".toList]),
   ("error".toList, ["error".toList, "exception".toList, "bug".toList,
                     "failed".toList, "warning".toList]),
   ("document".toList, ["document".toList, "report".toList, "pdf".toList,
                        "doc".toList, "file".toList]),
   ("web".toList, ["http".toList, "www".toList, "url".toList,
                   "website".toList, "browser".toList]),
   ("mobile".toList, ["phone".toList, "mobile".toList, "app".toList,
                      "android".toList, "ios".toList]),
   ("social".toList, ["facebook".toList, "twitter".toList, "instagram".toList,
                      "telegram".toList, "whatsapp".toList]),
   ("date".toList, ["today".toList, "tomorrow".toList, "yesterday".toList,
                    "2024".toList, "2025".toList, "january".toList,
                    "february".toList])]

/-- Embeds `NoteProcessor.extract_tags` (telegram_bot.py, lines 144-179):
category tags whose keyword lists hit the lowercased content as a
substring, plus lowercased `#word` hashtags, deduplicated.  Python's
`list(set(tags))` has unspecified order; it is modelled as keeping the
first occurrence of each tag. -/
def NoteProcessor.extract_tags (content : List Char) : List (List Char) :=
  if content.isEmpty || startsWithError content then []
  else
    ((tag_patterns.filter
        (fun q => q.2.any (fun w => hasSubstr w (content.map lowerChar)))).map Prod.fst
      ++ (findHashtags content).map (fun w => w.map lowerChar)).dedup

/-- One `line` object of the Yandex OCR response's block structure. -/
structure Line where
  text : List Char
  deriving DecidableEq

/-- One `block` object of the Yandex OCR response. -/
structure Block where
  lines : List Line
  deriving DecidableEq

/-- The `textAnnotation` object of a parsed Yandex OCR response: the
consolidated `fullText` field (`''` when absent, matching
`.get('fullText', '')`) and the hierarchical `blocks` structure. -/
structure TextAnnotation where
  fullText : List Char
  blocks : List Block
  deriving DecidableEq

/-- The line texts of the hierarchical structure in block order, top to
bottom, empty lines skipped, joined with newlines — the fallback
representation assembled by `YandexVisionOCR.extract_text_from_image`. -/
def YandexVisionOCR.blocks_text (ta : TextAnnotation) : List Char :=
  List.intercalate ['\n']
    (((ta.blocks.map Block.lines).flatten.map Line.text).filter (fun t => !t.isEmpty))

/-- Embeds the response-parsing tail of
`YandexVisionOCR.extract_text_from_image` (telegram_bot.py, lines 74-100).
`none` models a JSON body without `result.textAnnotation`. -/
def YandexVisionOCR.parse_annotation : Option TextAnnotation → List Char
  | none => []
  | some ta =>
    if ta.fullText.isEmpty then
      if (YandexVisionOCR.blocks_text ta).isEmpty then []
      else pyStrip (YandexVisionOCR.blocks_text ta)
    else pyStrip ta.fullText

/-- Outcome of the HTTP interaction with the Yandex OCR service as seen by
`YandexVisionOCR.extract_text_from_image`: a response with a status code
and a body (`none` = undecodable JSON, `some j` = decoded JSON with an
optional `result.textAnnotation`), a `requests` network failure, or any
other exception. -/
inductive OcrOutcome where
  | response (status : Nat) (body : Option (Option TextAnnotation))
  | networkError
  | unexpectedError
  deriving DecidableEq

/-- Embeds `YandexVisionOCR.extract_text_from_image` (telegram_bot.py,
lines 40-122): the 401 pre-check, `raise_for_status` feeding the
`HTTPError` handler (401/403/other), the `RequestException` and
`JSONDecodeError` handlers, and the parsing tail.  Failures are reported
in-band as strings with the `Error:` prefix, exactly as in the source. -/
def YandexVisionOCR.extract_text_from_image : OcrOutcome → List Char
  | .networkError => "Error: Network error while processing image.".toList
  | .unexpectedError => "Error: Unexpected error during text extraction.".toList
  | .response status body =>
    if status = 401 then
      "Error: IAM token expired. Please refresh your token.".toList
    else if 400 ≤ status ∧ status < 600 then
      if status = 403 then
        "Error: Access denied. Please check your folder permissions.".toList
      else "Error: Failed to process image with OCR service.".toList
    else
      match body with
      | none => "Error: Invalid response from OCR service.".toList
      | some ann => YandexVisionOCR.parse_annotation ann

/-- Outcome of the Google Cloud Vision `text_detection` call as seen by the
vision-keyword variant's `NotesBot.extract_text_from_image`: the list of
`text_annotations` descriptions on success (the first entry is the
consolidated text), or an exception, split by cause so distinguishability
can be stated. -/
inductive GVisionOutcome where
  | annotations (descs : List (List Char))
  | authError
  | networkError
  | otherError
  deriving DecidableEq

/-- Embeds `NotesBot.extract_text_from_image` (telegram_bot_google.py,
lines 85-97): the first annotation's description when present, `''` when
the annotation list is empty, and `''` for every exception — the
`except Exception` handler logs and returns `""` regardless of cause. -/
def GoogleBot.extract_text_from_image : GVisionOutcome → List Char
  | .annotations [] => []
  | .annotations (d :: _) => d
  | .authError => []
  | .networkError => []
  | .otherError => []

/-- The `topics` table of `NotesBot.generate_title_from_text`
(telegram_bot_google.py, lines 107-118), in source order. -/
def title_topics : List (List Char × List (List Char)) :=
  [("ACID".toList, ["acid".toList, "атомарность".toList, "consistency".toList,
                    "isolation".toList]),
   ("База данных".toList, ["база данных".toList, "database".toList,
                           "sql".toList, "таблица".toList]),
   ("Код".toList, ["def ".toList, "function".toList, "import".toList,
                   "class ".toList, "код".toList]),
   ("Настройки".toList, ["настройки".toList, "settings".toList,
                         "конфигурация".toList]),
   ("Ошибка".toList, ["error".toList, "exception".toList, "ошибка".toList,
                      "failed".toList]),
   ("Урок".toList, ["урок".toList, "tutorial".toList, "гайд".toList,
                    "обучение".toList]),
   ("Чат".toList, ["чат".toList, "сообщение".toList, "message".toList,
                   "диалог".toList]),
   ("Документ".toList, ["документ".toList, "статья".toList, "document".toList]),
   ("Сайт".toList, ["http".toList, "www".toList, "сайт".toList,
                    "website".toList]),
   ("Деньги".toList, ["рубль".toList, "деньги".toList, "цена".toList,
                      "$".toList, "€".toList, "₽".toList])]

/-- First topic whose keyword list hits the lowercased text, in table
order — the nested `for` loops with early `return` of
`generate_title_from_text`. -/
def findTopic : List (List Char × List (List Char)) → List Char → Option (List Char)
  | [], _ => none
  | (t, kws) :: rest, lower =>
    if kws.any (fun w => hasSubstr w lower) then some t
    else findTopic rest lower

/-- Embeds `NotesBot.generate_title_from_text` (telegram_bot_google.py,
lines 99-135): topic keyword lookup, else the first up-to-three words of
the first line (kept only when the joined title is at most 30
characters), else the fixed default. -/
def GoogleBot.generate_title_from_text (text : List Char) : List Char :=
  if text.isEmpty then "Скриншот".toList
  else
    match findTopic title_topics (text.map lowerChar) with
    | some t => t
    | none =>
      let first_line := pyStrip (text.takeWhile (fun c => !(c = '\n' : Bool)))
      match (pySplitWs first_line).take 3 with
      | [] => "Скриншот".toList
      | w :: ws =>
        let title := List.intercalate [' '] (w :: ws)
        if title.length ≤ 30 then title else w

/-- The `tag_keywords` table of `NotesBot.generate_tags_from_text`
(telegram_bot_google.py, lines 146-159), in source order. -/
def tag_keywords : List (List Char × List (List Char)) :=
  [("code".toList, ["def ".toList, "function".toList, "import".toList,
                    "class ".toList, "код".toList, "программа".toList]),
   ("database".toList, ["database".toList, "sql".toList, "база данных".toList,
                        "таблица".toList, "acid".toList]),
   ("email".toList, ["@".toList, "email".toList, "почта".toList,
                     "письмо".toList]),
   ("web".toList, ["http".toList, "www".toList, "сайт".toList,
                   "website".toList]),
   ("document".toList, ["документ".toList, "статья".toList, "document".toList]),
   ("chat".toList, ["чат".toList, "сообщение".toList, "message".toList,
                    "диалог".toList]),
   ("settings".toList, ["настройки".toList, "settings".toList,
                        "конфигурация".toList]),
   ("error".toList, ["error".toList, "ошибка".toList, "exception".toList,
                     "failed".toList]),
   ("tutorial".toList, ["урок".toList, "tutorial".toList, "гайд".toList,
                        "обучение".toList]),
   ("financial".toList, ["рубль".toList, "деньги".toList, "цена".toList,
                         "$".toList, "€".toList, "₽".toList]),
   ("education".toList, ["школа".toList, "университет".toList,
                         "студент".toList, "учеба".toList]),
   ("business".toList, ["работа".toList, "офис".toList, "проект".toList,
                        "задача".toList])]

/-- Embeds `NotesBot.generate_tags_from_text` (telegram_bot_google.py,
lines 137-167): the constant tag `screenshot` plus the matching keyword
categories, deduplicated (`list(set(tags))` modelled as keeping first
occurrences). -/
def GoogleBot.generate_tags_from_text (text : List Char) : List (List Char) :=
  if text.isEmpty then ["screenshot".toList]
  else
    ("screenshot".toList ::
      (tag_keywords.filter
        (fun q => q.2.any (fun w => hasSubstr w (text.map lowerChar)))).map Prod.fst).dedup

/-- Embeds the tag rows assembled by `NotesBot.save_note_to_db`
(telegram_bot_open_ai.py, lines 305-316): tags whose `strip()` is empty
are dropped, the others are stored stripped.  No case-insensitive
deduplication is performed. -/
def OpenAIBot.save_note_tags (tags : List (List Char)) : List (List Char) :=
  (tags.map pyStrip).filter (fun t => !t.isEmpty)

/-- The wall-clock reading taken by `datetime.now()` at key-generation
time, to the resolution Python exposes. -/
structure DateTime where
  year : Nat
  month : Nat
  day : Nat
  hour : Nat
  minute : Nat
  second : Nat
  microsecond : Nat
  deriving DecidableEq

/-- Zero-padded two-digit decimal field of `strftime`. -/
def pad2 (n : Nat) : List Char :=
  if n < 10 then '0' :: Nat.toDigits 10 n else Nat.toDigits 10 n

/-- Zero-padded four-digit decimal field of `strftime`. -/
def pad4 (n : Nat) : List Char :=
  if n < 10 then '0' :: '0' :: '0' :: Nat.toDigits 10 n
  else if n < 100 then '0' :: '0' :: Nat.toDigits 10 n
  else if n < 1000 then '0' :: Nat.toDigits 10 n
  else Nat.toDigits 10 n

/-- Python `datetime.strftime("%Y%m%d_%H%M%S")`: second resolution, the
microsecond field is not rendered. -/
def strftime_sec_underscore (d : DateTime) : List Char :=
  pad4 d.year ++ pad2 d.month ++ pad2 d.day ++ ['_'] ++
    pad2 d.hour ++ pad2 d.minute ++ pad2 d.second

/-- Python `datetime.strftime("%Y%m%d%H%M%S")`: second resolution, no
separator. -/
def strftime_sec (d : DateTime) : List Char :=
  pad4 d.year ++ pad2 d.month ++ pad2 d.day ++
    pad2 d.hour ++ pad2 d.minute ++ pad2 d.second

/-- Asset key of the rules-based variant (telegram_bot.py, lines 378-379):
`f"screenshot_{message.from_user.id}_{timestamp}.jpg"`. -/
def bot_filename (userId : Nat) (d : DateTime) : List Char :=
  "screenshot_".toList ++ Nat.toDigits 10 userId ++ ['_'] ++
    strftime_sec_underscore d ++ ".jpg".toList

/-- Asset key of the AI variant (telegram_bot_open_ai.py, lines 354-355):
`f"{user_id}{timestamp}.jpg"`. -/
def openai_filename (userId : Nat) (d : DateTime) : List Char :=
  Nat.toDigits 10 userId ++ strftime_sec d ++ ".jpg".toList

/-- Asset key of the vision-keyword variant (telegram_bot_google.py,
line 230): `f"screenshot_{uuid.uuid4()}_{int(datetime.now().timestamp())}.jpg"`.
The rendered UUID4 is a 36-character string. -/
def google_filename (uuidStr : List Char) (unixTs : Nat) : List Char :=
  "screenshot_".toList ++ uuidStr ++ ['_'] ++ Nat.toDigits 10 unixTs ++
    ".jpg".toList

/-- A persisted note row (`notes` table): owner, title, tag set, full
extracted body and the optional asset URL.  `created_at` is set by the
database clock and is not modelled. -/
structure Note where
  userId : Nat
  title : List Char
  tags : List (List Char)
  content : List Char
  imageUrl : Option (List Char)
  deriving DecidableEq

/-- Terminal result of one run of the rules-based variant's photo
handler. -/
inductive BotResult where
  | noText
  | extractionError
  | saveFailed
  | success
  deriving DecidableEq

/-- Collaborator outcomes for one run of
`TelegramOCRBot.register_handlers.handle_photo`: the OCR output already
extracted from the HTTP interaction, the upload result
(`None` on failure) and whether the database insert returns a row. -/
structure BotEnv where
  userId : Nat
  dt : DateTime
  extracted : List Char
  uploadResult : Option (List Char)
  saveOk : Bool

/-- What one run of the rules-based handler did: terminal result, whether
`SupabaseManager.upload_image` was invoked and under which key, whether
`SupabaseManager.save_note` was invoked, and the persisted note. -/
structure BotTrace where
  result : BotResult
  uploadCalled : Bool
  uploadKey : Option (List Char)
  saveCalled : Bool
  savedNote : Option Note
  deriving DecidableEq

/-- Embeds `TelegramOCRBot.register_handlers.handle_photo`
(telegram_bot.py, lines 357-413): abort on empty extraction, abort on the
`Error:` marker, otherwise structure the note, upload the image (a
failed upload does not abort: `image_url` is simply `None`) and save. -/
def TelegramOCRBot.handle_photo (env : BotEnv) : BotTrace :=
  if env.extracted.isEmpty then
    ⟨.noText, false, none, false, none⟩
  else if startsWithError env.extracted then
    ⟨.extractionError, false, none, false, none⟩
  else if env.saveOk then
    ⟨.success, true, some (bot_filename env.userId env.dt), true,
      some ⟨env.userId, NoteProcessor.generate_title env.extracted 50,
            NoteProcessor.extract_tags env.extracted, env.extracted,
            env.uploadResult⟩⟩
  else
    ⟨.saveFailed, true, some (bot_filename env.userId env.dt), true, none⟩

/-- Terminal result of one run of the vision-keyword variant's photo
handler. -/
inductive GoogleResult where
  | noText
  | uploadFailed
  | saveFailed
  | success
  deriving DecidableEq

/-- Collaborator outcomes for one run of the vision-keyword variant's
`NotesBot.handle_photo`. -/
structure GoogleEnv where
  userId : Nat
  visionOutcome : GVisionOutcome
  uuidStr : List Char
  unixTs : Nat
  uploadResult : Option (List Char)
  saveOk : Bool

/-- What one run of the vision-keyword handler did. -/
structure GoogleTrace where
  result : GoogleResult
  uploadCalled : Bool
  uploadKey : Option (List Char)
  saveCalled : Bool
  savedNote : Option Note
  deriving DecidableEq

/-- Embeds `NotesBot.handle_photo` (telegram_bot_google.py, lines 202-265):
abort when the extracted text is empty (`if not extracted_text`),
otherwise structure, upload (aborting when the upload returns no URL)
and save. -/
def GoogleBot.handle_photo (env : GoogleEnv) : GoogleTrace :=
  if (GoogleBot.extract_text_from_image env.visionOutcome).isEmpty then
    ⟨.noText, false, none, false, none⟩
  else
    match env.uploadResult with
    | none =>
      ⟨.uploadFailed, true, some (google_filename env.uuidStr env.unixTs),
        false, none⟩
    | some url =>
      if env.saveOk then
        ⟨.success, true, some (google_filename env.uuidStr env.unixTs), true,
          some ⟨env.userId,
                GoogleBot.generate_title_from_text
                  (GoogleBot.extract_text_from_image env.visionOutcome),
                GoogleBot.generate_tags_from_text
                  (GoogleBot.extract_text_from_image env.visionOutcome),
                GoogleBot.extract_text_from_image env.visionOutcome,
                some url⟩⟩
      else
        ⟨.saveFailed, true, some (google_filename env.uuidStr env.unixTs),
          true, none⟩

/-- The structured payload returned by the AI backend on success:
`{title, tags, content}` as parsed by `analyze_image_with_openai`. -/
structure NoteData where
  title : List Char
  tags : List (List Char)
  content : List Char
  deriving DecidableEq

/-- Terminal result of one run of the AI variant's image handler. -/
inductive AIResult where
  | uploadFailed
  | analysisFailed
  | saveFailed
  | success
  deriving DecidableEq

/-- Collaborator outcomes for one run of the AI variant's
`NotesBot.handle_image`: the upload result, the analysis result (`none`
models both an API failure and unparseable JSON — `analyze_image_with_openai`
returns `None` for every exception) and the database outcome. -/
structure AIEnv where
  userId : Nat
  dt : DateTime
  uploadResult : Option (List Char)
  analysisResult : Option NoteData
  saveOk : Bool

/-- What one run of the AI-variant handler did. -/
structure AITrace where
  result : AIResult
  uploadCalled : Bool
  uploadKey : Option (List Char)
  analyzeCalled : Bool
  saveCalled : Bool
  savedNote : Option Note
  deriving DecidableEq

/-- Embeds `NotesBot.handle_image` (telegram_bot_open_ai.py,
lines 333-399): the image is uploaded to storage FIRST; only then is the
AI analysis (the extraction/structuring stage of this variant) invoked,
and only then the note saved.  The persisted note's tags are the filtered
rows of `save_note_to_db`; the `username` column is not modelled. -/
def OpenAIBot.handle_image (env : AIEnv) : AITrace :=
  match env.uploadResult with
  | none =>
    ⟨.uploadFailed, true, some (openai_filename env.userId env.dt),
      false, false, none⟩
  | some url =>
    match env.analysisResult with
    | none =>
      ⟨.analysisFailed, true, some (openai_filename env.userId env.dt),
        true, false, none⟩
    | some nd =>
      if env.saveOk then
        ⟨.success, true, some (openai_filename env.userId env.dt), true, true,
          some ⟨env.userId, nd.title, OpenAIBot.save_note_tags nd.tags,
                nd.content, some url⟩⟩
      else
        ⟨.saveFailed, true, some (openai_filename env.userId env.dt),
          true, true, none⟩

/-! Shared helper lemmas. -/

theorem lowerChar_fix_snd : ∀ q ∈ lowerPairs, lowerChar q.2 = q.2 := by decide

theorem lowerChar_idem (c : Char) : lowerChar (lowerChar c) = lowerChar c := by
  cases hf : lowerPairs.find? (fun q => q.1 = c) with
  | none =>
    have h1 : lowerChar c = c := by unfold lowerChar; rw [hf]
    rw [h1, h1]
  | some q =>
    have h1 : lowerChar c = q.2 := by unfold lowerChar; rw [hf]
    rw [h1]
    exact lowerChar_fix_snd q (List.mem_of_find?_eq_some hf)

theorem map_lowerChar_idem (l : List Char) :
    (l.map lowerChar).map lowerChar = l.map lowerChar := by
  rw [List.map_map]
  exact List.map_congr_left (fun c _ => lowerChar_idem c)

theorem map_eq_self_of_fixed {α : Type} {f : α → α} :
    ∀ l : List α, (∀ x ∈ l, f x = x) → l.map f = l := by
  intro l h
  induction l with
  | nil => rfl
  | cons a t ih =>
    rw [List.map_cons, h a (by simp), ih (fun x hx => h x (by simp [hx]))]

theorem findHashtagsAux_ne_nil (l : List Char) :
    ∀ (st : Option (List Char)) (w : List Char),
      w ∈ findHashtagsAux st l → w ≠ [] := by
  induction l with
  | nil =>
    intro st w hw
    cases st with
    | none => simp [findHashtagsAux] at hw
    | some acc =>
      simp only [findHashtagsAux] at hw
      by_cases h : acc.isEmpty = true
      · rw [if_pos h] at hw
        simp at hw
      · rw [if_neg h] at hw
        rcases List.mem_singleton.mp hw with rfl
        intro heq
        exact h (by rw [List.reverse_eq_nil_iff.mp heq]; rfl)
  | cons c rest ih =>
    intro st w hw
    cases st with
    | none =>
      simp only [findHashtagsAux] at hw
      by_cases h : c = '#'
      · rw [if_pos h] at hw
        exact ih _ w hw
      · rw [if_neg h] at hw
        exact ih _ w hw
    | some acc =>
      simp only [findHashtagsAux] at hw
      by_cases h1 : isWordChar c = true
      · rw [if_pos h1] at hw
        exact ih _ w hw
      · rw [if_neg h1] at hw
        by_cases h2 : acc.isEmpty = true
        · rw [if_pos h2] at hw
          exact ih _ w hw
        · rw [if_neg h2] at hw
          rcases List.mem_cons.mp hw with rfl | hw2
          · intro heq
            exact h2 (by rw [List.reverse_eq_nil_iff.mp heq]; rfl)
          · exact ih _ w hw2

theorem findHashtags_ne_nil (l : List Char) : ∀ w ∈ findHashtags l, w ≠ [] :=
  fun w hw => findHashtagsAux_ne_nil l none w hw

theorem dropWhile_space_all (l : List Char) :
    (l.dropWhile pyIsSpace).all pyIsSpace = true → l.dropWhile pyIsSpace = [] := by
  induction l with
  | nil => intro _; rfl
  | cons a t ih =>
    rw [List.dropWhile_cons]
    by_cases h : pyIsSpace a = true
    · rw [if_pos h]; exact ih
    · rw [if_neg h]
      intro hall
      rw [List.all_cons, Bool.and_eq_true_iff] at hall
      exact absurd hall.1 h

theorem allSpace_pyStrip (l : List Char) (h : allSpace (pyStrip l) = true) :
    pyStrip l = [] := by
  unfold pyStrip at h ⊢
  unfold allSpace at h
  rw [List.all_reverse] at h
  rw [dropWhile_space_all _ h]
  rfl

theorem truncateTitle_length_le (t : List Char) :
    (truncateTitle t 50).length ≤ 50 := by
  unfold truncateTitle
  by_cases h : 50 < t.length
  · rw [if_pos h, List.length_append, List.length_take]
    have h3 : ("...".toList).length = 3 := rfl
    have h4 : min (50 - 3) t.length ≤ 47 := le_trans (Nat.min_le_left _ _) (by omega)
    omega
  · rw [if_neg h]; omega

theorem generate_title_length_le (content : List Char) :
    (NoteProcessor.generate_title content 50).length ≤ 50 := by
  unfold NoteProcessor.generate_title
  by_cases h : (content.isEmpty || startsWithError content) = true
  · rw [if_pos h]; decide
  · rw [if_neg h]
    by_cases h2 : (truncateTitle (firstSentenceTitle content) 50).isEmpty = true
    · rw [if_pos h2]; decide
    · rw [if_neg h2]; exact truncateTitle_length_le _

theorem generate_title_ne_nil (content : List Char) :
    NoteProcessor.generate_title content 50 ≠ [] := by
  unfold NoteProcessor.generate_title
  by_cases h : (content.isEmpty || startsWithError content) = true
  · rw [if_pos h]; decide
  · rw [if_neg h]
    by_cases h2 : (truncateTitle (firstSentenceTitle content) 50).isEmpty = true
    · rw [if_pos h2]; decide
    · rw [if_neg h2]
      intro heq
      rw [heq] at h2
      exact h2 rfl

theorem tag_patterns_fst_ok :
    ∀ q ∈ tag_patterns, (q.1).map lowerChar = q.1 ∧ q.1 ≠ [] := by decide

theorem extract_tags_mem_ok (content : List Char) :
    ∀ x ∈ NoteProcessor.extract_tags content, x.map lowerChar = x ∧ x ≠ [] := by
  intro x hx
  unfold NoteProcessor.extract_tags at hx
  by_cases h : (content.isEmpty || startsWithError content) = true
  · rw [if_pos h] at hx; simp at hx
  · rw [if_neg h] at hx
    rcases List.mem_append.mp (List.mem_dedup.mp hx) with hc | hh
    · rcases List.mem_map.mp hc with ⟨q, hq, rfl⟩
      exact tag_patterns_fst_ok q (List.mem_of_mem_filter hq)
    · rcases List.mem_map.mp hh with ⟨w, hw, rfl⟩
      refine ⟨map_lowerChar_idem w, ?_⟩
      rw [Ne, List.map_eq_nil_iff]
      exact findHashtags_ne_nil content w hw

theorem extract_tags_nodup_lower (content : List Char) :
    ((NoteProcessor.extract_tags content).map (List.map lowerChar)).Nodup := by
  rw [map_eq_self_of_fixed _ (fun x hx => (extract_tags_mem_ok content x hx).1)]
  unfold NoteProcessor.extract_tags
  by_cases h : (content.isEmpty || startsWithError content) = true
  · rw [if_pos h]; exact List.nodup_nil
  · rw [if_neg h]; exact List.nodup_dedup _

theorem extract_tags_nil_not_mem (content : List Char) :
    [] ∉ NoteProcessor.extract_tags content := by
  intro hx
  exact (extract_tags_mem_ok content [] hx).2 rfl

theorem tag_keywords_fst_ok :
    ∀ q ∈ tag_keywords, (q.1).map lowerChar = q.1 ∧ q.1 ≠ [] := by decide

theorem gtags_mem_ok (text : List Char) :
    ∀ x ∈ GoogleBot.generate_tags_from_text text,
      x.map lowerChar = x ∧ x ≠ [] := by
  intro x hx
  unfold GoogleBot.generate_tags_from_text at hx
  by_cases h : text.isEmpty = true
  · rw [if_pos h] at hx
    rcases List.mem_singleton.mp hx with rfl
    exact ⟨by decide, by decide⟩
  · rw [if_neg h] at hx
    rcases List.mem_cons.mp (List.mem_dedup.mp hx) with rfl | hc
    · exact ⟨by decide, by decide⟩
    · rcases List.mem_map.mp hc with ⟨q, hq, rfl⟩
      exact tag_keywords_fst_ok q (List.mem_of_mem_filter hq)

theorem gtags_nodup_lower (text : List Char) :
    ((GoogleBot.generate_tags_from_text text).map (List.map lowerChar)).Nodup := by
  rw [map_eq_self_of_fixed _ (fun x hx => (gtags_mem_ok text x hx).1)]
  unfold GoogleBot.generate_tags_from_text
  by_cases h : text.isEmpty = true
  · rw [if_pos h]; exact List.nodup_singleton _
  · rw [if_neg h]; exact List.nodup_dedup _

theorem gtags_nil_not_mem (text : List Char) :
    [] ∉ GoogleBot.generate_tags_from_text text := by
  intro hx
  exact (gtags_mem_ok text [] hx).2 rfl

theorem save_note_tags_nil_not_mem (tags : List (List Char)) :
    [] ∉ OpenAIBot.save_note_tags tags := by
  intro hx
  unfold OpenAIBot.save_note_tags at hx
  have h2 := (List.mem_filter.mp hx).2
  exact absurd h2 (by decide)

theorem screenshot_mem_gtags (text : List Char) :
    "screenshot".toList ∈ GoogleBot.generate_tags_from_text text := by
  unfold GoogleBot.generate_tags_from_text
  by_cases h : text.isEmpty = true
  · rw [if_pos h]
    exact List.mem_singleton.mpr rfl
  · rw [if_neg h]
    exact List.mem_dedup.mpr (List.mem_cons_self _ _)

/-! Claim theorems. -/

/-- C4: for every non-empty extracted text that is not an error marker,
`generate_title` returns a non-empty string whose length is at most the
configured maximum title length (50 by default). -/
theorem C4_generate_title_bounds (content : List Char)
    (h1 : content ≠ []) (h2 : startsWithError content = false) :
    NoteProcessor.generate_title content 50 ≠ [] ∧
      (NoteProcessor.generate_title content 50).length ≤ 50 :=
  ⟨generate_title_ne_nil content, generate_title_length_le content⟩

/-- Witness for C4 at the concrete input `"Hello world"`. -/
theorem C4_generate_title_bounds_witness :
    ("Hello world".toList ≠ [] ∧
        startsWithError "Hello world".toList = false) ∧
      (NoteProcessor.generate_title "Hello world".toList 50 ≠ [] ∧
        (NoteProcessor.generate_title "Hello world".toList 50).length ≤ 50) :=
  ⟨⟨by decide, by decide⟩, C4_generate_title_bounds _ (by decide) (by decide)⟩

/-- C5 counterexample: an input that starts with the in-band `Error:`
marker and whose first sentence is 80 characters long produces the fixed
default title of length 19, not a 50-character truncated title, so the
claim's universal statement fails on this input. -/
theorem C5_counterexample :
    (firstSentenceTitle ("Error:".toList ++ List.replicate 74 'a')).length = 80 ∧
      NoteProcessor.generate_title ("Error:".toList ++ List.replicate 74 'a') 50 =
        "Untitled Screenshot".toList ∧
      (NoteProcessor.generate_title
          ("Error:".toList ++ List.replicate 74 'a') 50).length ≠ 50 := by
  decide

/-- C5 (amended): for every input that does not start with the `Error:`
marker, if its first sentence (whitespace collapsed) is 80 characters
long then `generate_title` returns a title of exactly 50 characters whose
last three characters are the truncation marker `...`; and for every
input whatsoever, the returned title never exceeds 50 characters. -/
theorem C5_title_truncation :
    (∀ content : List Char, startsWithError content = false →
        (firstSentenceTitle content).length = 80 →
        (NoteProcessor.generate_title content 50).length = 50 ∧
          (NoteProcessor.generate_title content 50).drop 47 = "...".toList) ∧
      ∀ content : List Char, (NoteProcessor.generate_title content 50).length ≤ 50 := by
  constructor
  · intro content herr hlen
    have hne : content.isEmpty = false := by
      cases hc : content.isEmpty
      · rfl
      · exfalso
        rw [List.isEmpty_iff.mp hc] at hlen
        exact absurd hlen (by decide)
    have h50 : 50 < (firstSentenceTitle content).length := by
      rw [hlen]; omega
    have htr : truncateTitle (firstSentenceTitle content) 50 =
        (firstSentenceTitle content).take (50 - 3) ++ "...".toList := by
      unfold truncateTitle
      rw [if_pos h50]
    have hlen2 : (truncateTitle (firstSentenceTitle content) 50).length = 50 := by
      rw [htr, List.length_append, List.length_take, hlen]
      decide
    have hemp : (truncateTitle (firstSentenceTitle content) 50).isEmpty = false := by
      rw [List.isEmpty_eq_false]
      intro he
      rw [he] at hlen2
      exact absurd hlen2 (by decide)
    have hgen : NoteProcessor.generate_title content 50 =
        truncateTitle (firstSentenceTitle content) 50 := by
      unfold NoteProcessor.generate_title
      rw [hne, herr, if_neg (by decide : ¬((false || false) = true)),
        hemp, if_neg (by decide : ¬(false = true))]
    constructor
    · rw [hgen]; exact hlen2
    · rw [hgen, htr]
      exact List.drop_left' (by rw [List.length_take, hlen]; decide)
  · exact generate_title_length_le

/-- Witness for the amended C5 at a run of 80 letters `a`. -/
theorem C5_title_truncation_witness :
    (startsWithError (List.replicate 80 'a') = false ∧
        (firstSentenceTitle (List.replicate 80 'a')).length = 80) ∧
      ((NoteProcessor.generate_title (List.replicate 80 'a') 50).length = 50 ∧
        (NoteProcessor.generate_title (List.replicate 80 'a') 50).drop 47 =
          "...".toList) :=
  ⟨⟨by decide, by decide⟩, C5_title_truncation.1 _ (by decide) (by decide)⟩

/-- C8: the Yandex extractor prefers the consolidated `fullText` field —
when it is non-empty the parsed result is its stripped value,
independent of the block structure — and falls back to the newline
concatenation of the hierarchical structure's line texts in block order
only when `fullText` is absent or empty. -/
theorem C8_fulltext_preference :
    (∀ ta : TextAnnotation,
        YandexVisionOCR.parse_annotation (some ta) =
          if ta.fullText.isEmpty then pyStrip (YandexVisionOCR.blocks_text ta)
          else pyStrip ta.fullText) ∧
      ∀ (ft : List Char) (bs bs2 : List Block), ft ≠ [] →
        YandexVisionOCR.parse_annotation (some ⟨ft, bs⟩) =
          YandexVisionOCR.parse_annotation (some ⟨ft, bs2⟩) := by
  constructor
  · intro ta
    simp only [YandexVisionOCR.parse_annotation]
    by_cases h : ta.fullText.isEmpty = true
    · rw [if_pos h, if_pos h]
      by_cases hb : (YandexVisionOCR.blocks_text ta).isEmpty = true
      · rw [if_pos hb, List.isEmpty_iff.mp hb]
        decide
      · rw [if_neg hb]
    · rw [if_neg h, if_neg h]
  · intro ft bs bs2 hft
    have h : ft.isEmpty = false := List.isEmpty_eq_false.mpr hft
    simp [YandexVisionOCR.parse_annotation, h]

/-- Witness for C8: with a non-empty `fullText` the result does not depend
on the block structure. -/
theorem C8_fulltext_preference_witness :
    YandexVisionOCR.parse_annotation
        (some ⟨"ab".toList, [⟨[⟨"xy".toList⟩]⟩]⟩) =
      YandexVisionOCR.parse_annotation (some ⟨"ab".toList, []⟩) :=
  C8_fulltext_preference.2 _ _ _ (by decide)

/-- C9: in the rules-based variant every extracted text starting with
`Error:` — genuine screenshot text included — aborts the run before any
persistence call, `generate_title` returns the fixed default
`Untitled Screenshot`, and `extract_tags` returns the empty list. -/
theorem C9_error_marker_in_band (t : List Char)
    (h : startsWithError t = true) (e : BotEnv) (he : e.extracted = t) :
    (TelegramOCRBot.handle_photo e).result = .extractionError ∧
      (TelegramOCRBot.handle_photo e).uploadCalled = false ∧
      (TelegramOCRBot.handle_photo e).saveCalled = false ∧
      (TelegramOCRBot.handle_photo e).savedNote = none ∧
      NoteProcessor.generate_title t 50 = "Untitled Screenshot".toList ∧
      NoteProcessor.extract_tags t = [] := by
  have hne : t.isEmpty = false := by
    cases t with
    | nil => exact absurd h (by decide)
    | cons a r => rfl
  have hrun : TelegramOCRBot.handle_photo e =
      ⟨.extractionError, false, none, false, none⟩ := by
    unfold TelegramOCRBot.handle_photo
    rw [he, hne, if_neg (by decide : ¬(false = true)), if_pos h]
  have htitle : NoteProcessor.generate_title t 50 =
      "Untitled Screenshot".toList := by
    unfold NoteProcessor.generate_title
    rw [hne, h, if_pos (by decide : (false || true) = true)]
  have htags : NoteProcessor.extract_tags t = [] := by
    unfold NoteProcessor.extract_tags
    rw [hne, h, if_pos (by decide : (false || true) = true)]
  rw [hrun]
  exact ⟨rfl, rfl, rfl, rfl, htitle, htags⟩

/-- Witness for C9 at genuine screenshot text that happens to begin with
the `Error:` prefix. -/
theorem C9_error_marker_in_band_witness :
    (startsWithError "Error: code 500 at line 3".toList = true) ∧
      ((TelegramOCRBot.handle_photo ⟨5, ⟨2025, 1, 1, 0, 0, 0, 0⟩,
          "Error: code 500 at line 3".toList, some "u".toList, true⟩).result =
            .extractionError ∧
        (TelegramOCRBot.handle_photo ⟨5, ⟨2025, 1, 1, 0, 0, 0, 0⟩,
          "Error: code 500 at line 3".toList, some "u".toList, true⟩).uploadCalled =
            false ∧
        (TelegramOCRBot.handle_photo ⟨5, ⟨2025, 1, 1, 0, 0, 0, 0⟩,
          "Error: code 500 at line 3".toList, some "u".toList, true⟩).saveCalled =
            false ∧
        (TelegramOCRBot.handle_photo ⟨5, ⟨2025, 1, 1, 0, 0, 0, 0⟩,
          "Error: code 500 at line 3".toList, some "u".toList, true⟩).savedNote =
            none ∧
        NoteProcessor.generate_title "Error: code 500 at line 3".toList 50 =
          "Untitled Screenshot".toList ∧
        NoteProcessor.extract_tags "Error: code 500 at line 3".toList = []) :=
  ⟨by decide, C9_error_marker_in_band _ (by decide) _ rfl⟩

/-- C10: the vision-API variant's `generate_tags_from_text` returns a tag
set containing `screenshot` for every input, the empty string included,
and consequently every note persisted by this variant carries the
`screenshot` tag. -/
theorem C10_screenshot_tag :
    (∀ text : List Char,
        "screenshot".toList ∈ GoogleBot.generate_tags_from_text text) ∧
      ∀ (e : GoogleEnv) (n : Note),
        (GoogleBot.handle_photo e).savedNote = some n →
          "screenshot".toList ∈ n.tags := by
  constructor
  · exact screenshot_mem_gtags
  · intro e n h
    unfold GoogleBot.handle_photo at h
    split at h
    · exact Option.noConfusion h
    · split at h
      · exact Option.noConfusion h
      · split at h
        · injection h with h4
          subst h4
          exact screenshot_mem_gtags _
        · exact Option.noConfusion h

/-- Witness for C10 at the empty text and at a concrete successful run. -/
theorem C10_screenshot_tag_witness :
    "screenshot".toList ∈ GoogleBot.generate_tags_from_text [] ∧
      "screenshot".toList ∈
        (⟨7, "hello".toList, ["screenshot".toList], "hello".toList,
          some "u".toList⟩ : Note).tags :=
  ⟨C10_screenshot_tag.1 [],
    C10_screenshot_tag.2
      ⟨7, .annotations ["hello".toList], "x".toList, 0, some "u".toList, true⟩
      _ (by decide)⟩

/-- C1 counterexample: in the AI variant the asset upload happens before
the extraction/structuring call, so a run whose extraction fails has
already invoked AssetStore.put and persisted the asset. -/
theorem C1_counterexample :
    (OpenAIBot.handle_image ⟨7, ⟨2025, 1, 15, 12, 0, 0, 0⟩,
        some "https://st/img.jpg".toList, none, true⟩).result = .analysisFailed ∧
      (OpenAIBot.handle_image ⟨7, ⟨2025, 1, 15, 12, 0, 0, 0⟩,
        some "https://st/img.jpg".toList, none, true⟩).uploadCalled = true := by
  decide

/-- C1 (amended): in the rules-based and vision-keyword variants a run
whose extraction fails or yields an empty string terminates with the
extraction failure and invokes neither the asset upload nor the note
save; in the AI variant such a run never invokes the note save (so no
note is persisted), but the asset upload has already been invoked. -/
theorem C1_failed_extraction_persists_nothing :
    (∀ e : BotEnv, e.extracted = [] ∨ startsWithError e.extracted = true →
        (TelegramOCRBot.handle_photo e).uploadCalled = false ∧
          (TelegramOCRBot.handle_photo e).saveCalled = false ∧
          (TelegramOCRBot.handle_photo e).savedNote = none ∧
          ((TelegramOCRBot.handle_photo e).result = .noText ∨
            (TelegramOCRBot.handle_photo e).result = .extractionError)) ∧
      (∀ e : GoogleEnv, GoogleBot.extract_text_from_image e.visionOutcome = [] →
        (GoogleBot.handle_photo e).uploadCalled = false ∧
          (GoogleBot.handle_photo e).saveCalled = false ∧
          (GoogleBot.handle_photo e).savedNote = none ∧
          (GoogleBot.handle_photo e).result = .noText) ∧
      ∀ e : AIEnv, e.analysisResult = none →
        (OpenAIBot.handle_image e).saveCalled = false ∧
          (OpenAIBot.handle_image e).savedNote = none := by
  refine ⟨?_, ?_, ?_⟩
  · intro e hfail
    rcases hfail with hempty | herr
    · have hrun : TelegramOCRBot.handle_photo e = ⟨.noText, false, none, false, none⟩ := by
        unfold TelegramOCRBot.handle_photo
        rw [hempty]
        rfl
      rw [hrun]
      exact ⟨rfl, rfl, rfl, Or.inl rfl⟩
    · have hne : e.extracted.isEmpty = false := by
        cases hc : e.extracted with
        | nil => rw [hc] at herr; exact absurd herr (by decide)
        | cons a r => rfl
      have hrun : TelegramOCRBot.handle_photo e =
          ⟨.extractionError, false, none, false, none⟩ := by
        unfold TelegramOCRBot.handle_photo
        rw [hne, if_neg (by decide : ¬(false = true)), if_pos herr]
      rw [hrun]
      exact ⟨rfl, rfl, rfl, Or.inr rfl⟩
  · intro e hfail
    have hrun : GoogleBot.handle_photo e = ⟨.noText, false, none, false, none⟩ := by
      unfold GoogleBot.handle_photo
      rw [hfail]
      rfl
    rw [hrun]
    exact ⟨rfl, rfl, rfl, rfl⟩
  · intro e hana
    cases hu : e.uploadResult with
    | none =>
      have hrun : OpenAIBot.handle_image e =
          ⟨.uploadFailed, true, some (openai_filename e.userId e.dt),
            false, false, none⟩ := by
        unfold OpenAIBot.handle_image
        rw [hu]
      rw [hrun]
      exact ⟨rfl, rfl⟩
    | some url =>
      have hrun : OpenAIBot.handle_image e =
          ⟨.analysisFailed, true, some (openai_filename e.userId e.dt),
            true, false, none⟩ := by
        unfold OpenAIBot.handle_image
        rw [hu, hana]
      rw [hrun]
      exact ⟨rfl, rfl⟩

/-- Witness for the amended C1 at three concrete failing runs. -/
theorem C1_failed_extraction_persists_nothing_witness :
    ((TelegramOCRBot.handle_photo
          ⟨5, ⟨2025, 1, 1, 0, 0, 0, 0⟩, [], some "u".toList, true⟩).uploadCalled = false ∧
        (TelegramOCRBot.handle_photo
          ⟨5, ⟨2025, 1, 1, 0, 0, 0, 0⟩, [], some "u".toList, true⟩).saveCalled = false ∧
        (TelegramOCRBot.handle_photo
          ⟨5, ⟨2025, 1, 1, 0, 0, 0, 0⟩, [], some "u".toList, true⟩).savedNote = none ∧
        ((TelegramOCRBot.handle_photo
            ⟨5, ⟨2025, 1, 1, 0, 0, 0, 0⟩, [], some "u".toList, true⟩).result = .noText ∨
          (TelegramOCRBot.handle_photo
            ⟨5, ⟨2025, 1, 1, 0, 0, 0, 0⟩, [], some "u".toList, true⟩).result =
              .extractionError)) ∧
      ((GoogleBot.handle_photo
          ⟨5, .authError, "x".toList, 0, some "u".toList, true⟩).uploadCalled = false ∧
        (GoogleBot.handle_photo
          ⟨5, .authError, "x".toList, 0, some "u".toList, true⟩).saveCalled = false ∧
        (GoogleBot.handle_photo
          ⟨5, .authError, "x".toList, 0, some "u".toList, true⟩).savedNote = none ∧
        (GoogleBot.handle_photo
          ⟨5, .authError, "x".toList, 0, some "u".toList, true⟩).result = .noText) ∧
      ((OpenAIBot.handle_image
          ⟨5, ⟨2025, 1, 1, 0, 0, 0, 0⟩, some "u".toList, none, true⟩).saveCalled = false ∧
        (OpenAIBot.handle_image
          ⟨5, ⟨2025, 1, 1, 0, 0, 0, 0⟩, some "u".toList, none, true⟩).savedNote = none) :=
  ⟨C1_failed_extraction_persists_nothing.1 _ (Or.inl rfl),
    C1_failed_extraction_persists_nothing.2.1 _ rfl,
    C1_failed_extraction_persists_nothing.2.2 _ rfl⟩

/-- C2 counterexample: two distinct runs of the same user in the same
wall-clock second (they differ only in the microsecond field, which the
key format does not render) generate identical asset keys in both the
rules-based and the AI variant. -/
theorem C2_counterexample :
    ((123 : Nat), (⟨2025, 1, 15, 12, 0, 0, 0⟩ : DateTime)) ≠
        ((123 : Nat), (⟨2025, 1, 15, 12, 0, 0, 500000⟩ : DateTime)) ∧
      bot_filename 123 ⟨2025, 1, 15, 12, 0, 0, 0⟩ =
        bot_filename 123 ⟨2025, 1, 15, 12, 0, 0, 500000⟩ ∧
      openai_filename 123 ⟨2025, 1, 15, 12, 0, 0, 0⟩ =
        openai_filename 123 ⟨2025, 1, 15, 12, 0, 0, 500000⟩ := by
  decide

/-- C2 (amended): only the vision-keyword variant generates
collision-resistant keys — its key determines the embedded 36-character
UUID, so runs with distinct UUIDs get distinct keys; in the other two
variants the key depends only on the user id and the second-resolution
timestamp fields, so runs in the same second collide. -/
theorem C2_asset_key_distinctness :
    (∀ (a b : List Char) (t1 t2 : Nat), a.length = 36 → b.length = 36 →
        google_filename a t1 = google_filename b t2 → a = b) ∧
      ∀ (u : Nat) (d1 d2 : DateTime), d1.year = d2.year → d1.month = d2.month →
        d1.day = d2.day → d1.hour = d2.hour → d1.minute = d2.minute →
        d1.second = d2.second →
        bot_filename u d1 = bot_filename u d2 ∧
          openai_filename u d1 = openai_filename u d2 := by
  constructor
  · intro a b t1 t2 ha hb heq
    unfold google_filename at heq
    simp only [List.append_assoc] at heq
    have h2 := List.append_cancel_left heq
    exact (List.append_inj h2 (by rw [ha, hb])).1
  · intro u d1 d2 h1 h2 h3 h4 h5 h6
    unfold bot_filename openai_filename strftime_sec_underscore strftime_sec
    rw [h1, h2, h3, h4, h5, h6]
    exact ⟨rfl, rfl⟩

/-- Witness for the amended C2 at concrete keys. -/
theorem C2_asset_key_distinctness_witness :
    ("000000000000000000000000000000000000".toList =
        "000000000000000000000000000000000000".toList) ∧
      (bot_filename 9 ⟨2025, 1, 2, 3, 4, 5, 6⟩ =
          bot_filename 9 ⟨2025, 1, 2, 3, 4, 5, 7⟩ ∧
        openai_filename 9 ⟨2025, 1, 2, 3, 4, 5, 6⟩ =
          openai_filename 9 ⟨2025, 1, 2, 3, 4, 5, 7⟩) :=
  ⟨C2_asset_key_distinctness.1 _ _ 0 0 (by decide) (by decide) rfl,
    C2_asset_key_distinctness.2 9 _ _ rfl rfl rfl rfl rfl rfl⟩

/-- C3 counterexample: the vision-keyword variant checks only emptiness,
so a whitespace-only extraction result (a single space) is not treated
as a failure — the run continues all the way to a successful save. -/
theorem C3_counterexample :
    allSpace (GoogleBot.extract_text_from_image (.annotations [[' ']])) = true ∧
      GoogleBot.extract_text_from_image (.annotations [[' ']]) ≠ [] ∧
      (GoogleBot.handle_photo
        ⟨7, .annotations [[' ']], "x".toList, 0, some "u".toList, true⟩).saveCalled =
          true ∧
      (GoogleBot.handle_photo
        ⟨7, .annotations [[' ']], "x".toList, 0, some "u".toList, true⟩).result =
          .success := by
  decide

/-- C3 (amended): an empty extraction result halts the rules-based and
vision-keyword runs as no-text failures before any persistence call, and
in the Yandex variant a whitespace-only extractor output is impossible —
every whitespace-only output of `extract_text_from_image` is already the
empty string, because success paths are stripped and error strings
contain non-whitespace characters.  Whitespace-only but non-empty
results are treated as failures only in that variant; the vision-keyword
variant lets them through (see the counterexample). -/
theorem C3_empty_extraction_halts :
    (∀ e : BotEnv, e.extracted = [] →
        (TelegramOCRBot.handle_photo e).result = .noText ∧
          (TelegramOCRBot.handle_photo e).uploadCalled = false ∧
          (TelegramOCRBot.handle_photo e).saveCalled = false) ∧
      (∀ e : GoogleEnv, GoogleBot.extract_text_from_image e.visionOutcome = [] →
        (GoogleBot.handle_photo e).result = .noText ∧
          (GoogleBot.handle_photo e).uploadCalled = false ∧
          (GoogleBot.handle_photo e).saveCalled = false) ∧
      ∀ o : OcrOutcome,
        allSpace (YandexVisionOCR.extract_text_from_image o) = true →
          YandexVisionOCR.extract_text_from_image o = [] := by
  refine ⟨?_, ?_, ?_⟩
  · intro e hempty
    have hrun : TelegramOCRBot.handle_photo e = ⟨.noText, false, none, false, none⟩ := by
      unfold TelegramOCRBot.handle_photo
      rw [hempty]
      rfl
    rw [hrun]
    exact ⟨rfl, rfl, rfl⟩
  · intro e hempty
    have hrun : GoogleBot.handle_photo e = ⟨.noText, false, none, false, none⟩ := by
      unfold GoogleBot.handle_photo
      rw [hempty]
      rfl
    rw [hrun]
    exact ⟨rfl, rfl, rfl⟩
  · intro o hsp
    cases o with
    | networkError => exact absurd hsp (by decide)
    | unexpectedError => exact absurd hsp (by decide)
    | response status body =>
      simp only [YandexVisionOCR.extract_text_from_image] at hsp ⊢
      by_cases h401 : status = 401
      · rw [if_pos h401] at hsp
        exact absurd hsp (by decide)
      · rw [if_neg h401] at hsp ⊢
        by_cases hrange : 400 ≤ status ∧ status < 600
        · rw [if_pos hrange] at hsp ⊢
          by_cases h403 : status = 403
          · rw [if_pos h403] at hsp
            exact absurd hsp (by decide)
          · rw [if_neg h403] at hsp
            exact absurd hsp (by decide)
        · rw [if_neg hrange] at hsp ⊢
          cases body with
          | none => exact absurd hsp (by decide)
          | some ann =>
            cases ann with
            | none => rfl
            | some ta =>
              simp only [YandexVisionOCR.parse_annotation] at hsp ⊢
              by_cases hft : ta.fullText.isEmpty = true
              · rw [if_pos hft] at hsp ⊢
                by_cases hb : (YandexVisionOCR.blocks_text ta).isEmpty = true
                · rw [if_pos hb]
                · rw [if_neg hb] at hsp ⊢
                  exact allSpace_pyStrip _ hsp
              · rw [if_neg hft] at hsp ⊢
                exact allSpace_pyStrip _ hsp

/-- Witness for the amended C3 at three concrete outcomes. -/
theorem C3_empty_extraction_halts_witness :
    ((TelegramOCRBot.handle_photo
          ⟨6, ⟨2025, 1, 1, 0, 0, 0, 0⟩, [], some "u".toList, true⟩).result = .noText ∧
        (TelegramOCRBot.handle_photo
          ⟨6, ⟨2025, 1, 1, 0, 0, 0, 0⟩, [], some "u".toList, true⟩).uploadCalled = false ∧
        (TelegramOCRBot.handle_photo
          ⟨6, ⟨2025, 1, 1, 0, 0, 0, 0⟩, [], some "u".toList, true⟩).saveCalled = false) ∧
      ((GoogleBot.handle_photo
          ⟨6, .annotations [], "x".toList, 0, some "u".toList, true⟩).result = .noText ∧
        (GoogleBot.handle_photo
          ⟨6, .annotations [], "x".toList, 0, some "u".toList, true⟩).uploadCalled = false ∧
        (GoogleBot.handle_photo
          ⟨6, .annotations [], "x".toList, 0, some "u".toList, true⟩).saveCalled = false) ∧
      YandexVisionOCR.extract_text_from_image
          (.response 200 (some (some ⟨"  ".toList, []⟩))) = [] :=
  ⟨C3_empty_extraction_halts.1 _ rfl,
    C3_empty_extraction_halts.2.1 _ rfl,
    C3_empty_extraction_halts.2.2 _ (by decide)⟩

/-- C6 counterexample: the AI variant performs no case-insensitive
deduplication — a successful run whose analysis returns the tags
`Python` and `python` persists a note carrying both, two entries that
are equal up to case. -/
theorem C6_counterexample :
    (OpenAIBot.handle_image ⟨7, ⟨2025, 1, 15, 12, 0, 0, 0⟩, some "u".toList,
        some ⟨"T".toList, ["Python".toList, "python".toList], "body".toList⟩,
        true⟩).savedNote =
      some ⟨7, "T".toList, ["Python".toList, "python".toList], "body".toList,
        some "u".toList⟩ ∧
      "Python".toList ≠ "python".toList ∧
      ("Python".toList).map lowerChar = ("python".toList).map lowerChar := by
  decide

/-- C6 (amended): notes persisted by the rules-based and vision-keyword
variants carry tag sets with no empty string and no two entries equal up
to case; notes persisted by the AI variant carry no empty tags (empty
and whitespace-only tags are filtered), but tags differing only in case
are not deduplicated. -/
theorem C6_tag_set_invariants :
    (∀ (e : BotEnv) (n : Note), (TelegramOCRBot.handle_photo e).savedNote = some n →
        (n.tags.map (List.map lowerChar)).Nodup ∧ [] ∉ n.tags) ∧
      (∀ (e : GoogleEnv) (n : Note), (GoogleBot.handle_photo e).savedNote = some n →
        (n.tags.map (List.map lowerChar)).Nodup ∧ [] ∉ n.tags) ∧
      ∀ (e : AIEnv) (n : Note), (OpenAIBot.handle_image e).savedNote = some n →
        [] ∉ n.tags := by
  refine ⟨?_, ?_, ?_⟩
  · intro e n h
    unfold TelegramOCRBot.handle_photo at h
    split at h
    · exact Option.noConfusion h
    · split at h
      · exact Option.noConfusion h
      · split at h
        · injection h with h4
          subst h4
          exact ⟨extract_tags_nodup_lower _, extract_tags_nil_not_mem _⟩
        · exact Option.noConfusion h
  · intro e n h
    unfold GoogleBot.handle_photo at h
    split at h
    · exact Option.noConfusion h
    · split at h
      · exact Option.noConfusion h
      · split at h
        · injection h with h4
          subst h4
          exact ⟨gtags_nodup_lower _, gtags_nil_not_mem _⟩
        · exact Option.noConfusion h
  · intro e n h
    unfold OpenAIBot.handle_image at h
    split at h
    · exact Option.noConfusion h
    · split at h
      · exact Option.noConfusion h
      · split at h
        · injection h with h4
          subst h4
          exact save_note_tags_nil_not_mem _
        · exact Option.noConfusion h

/-- Witness for the amended C6 at three concrete successful runs. -/
theorem C6_tag_set_invariants_witness :
    (((⟨8, "hi".toList, [], "hi".toList, some "u".toList⟩ : Note).tags.map
          (List.map lowerChar)).Nodup ∧
        [] ∉ (⟨8, "hi".toList, [], "hi".toList, some "u".toList⟩ : Note).tags) ∧
      (((⟨8, "hello".toList, ["screenshot".toList], "hello".toList,
            some "u".toList⟩ : Note).tags.map (List.map lowerChar)).Nodup ∧
        [] ∉ (⟨8, "hello".toList, ["screenshot".toList], "hello".toList,
          some "u".toList⟩ : Note).tags) ∧
      [] ∉ (⟨8, "T".toList, ["ai".toList], "body".toList,
        some "u".toList⟩ : Note).tags :=
  ⟨C6_tag_set_invariants.1
      ⟨8, ⟨2025, 1, 1, 0, 0, 0, 0⟩, "hi".toList, some "u".toList, true⟩ _ (by decide),
    C6_tag_set_invariants.2.1
      ⟨8, .annotations ["hello".toList], "x".toList, 0, some "u".toList, true⟩ _
      (by decide),
    C6_tag_set_invariants.2.2
      ⟨8, ⟨2025, 1, 1, 0, 0, 0, 0⟩, some "u".toList,
        some ⟨"T".toList, ["ai".toList], "body".toList⟩, true⟩ _ (by decide)⟩

/-- C7 counterexample: the Google-vision extractor returns the empty
string for an authentication failure, for a network failure and for an
empty annotation list alike — the three outcomes are indistinguishable,
refuting the claim for this TextExtractor implementation. -/
theorem C7_counterexample :
    GoogleBot.extract_text_from_image .authError =
        GoogleBot.extract_text_from_image .networkError ∧
      GoogleBot.extract_text_from_image .networkError =
        GoogleBot.extract_text_from_image (.annotations []) := by
  decide

/-- C7 (amended): the Yandex extractor distinguishes authentication
failures (401 and 403 produce dedicated `Error:` strings) from network
failures and from the no-text outcome (the empty string), pairwise; the
Google-vision extractor collapses all three to the empty string. -/
theorem C7_failure_distinguishability :
    (YandexVisionOCR.extract_text_from_image (.response 401 none) ≠
        YandexVisionOCR.extract_text_from_image .networkError) ∧
      (YandexVisionOCR.extract_text_from_image (.response 403 none) ≠
        YandexVisionOCR.extract_text_from_image .networkError) ∧
      (YandexVisionOCR.extract_text_from_image (.response 401 none) ≠
        YandexVisionOCR.extract_text_from_image (.response 200 (some none))) ∧
      (YandexVisionOCR.extract_text_from_image (.response 403 none) ≠
        YandexVisionOCR.extract_text_from_image (.response 200 (some none))) ∧
      (YandexVisionOCR.extract_text_from_image .networkError ≠
        YandexVisionOCR.extract_text_from_image (.response 200 (some none))) ∧
      YandexVisionOCR.extract_text_from_image (.response 200 (some none)) = [] ∧
      GoogleBot.extract_text_from_image .authError = [] ∧
      GoogleBot.extract_text_from_image .networkError = [] ∧
      GoogleBot.extract_text_from_image (.annotations []) = [] := by
  decide

end Ojpg
